import Mathlib

/-!
Verification of the HalluciFix source-rewrite scripts.

The repository consists of three Python scripts that rewrite
TypeScript/JavaScript source text with regular expressions:

* `clean-unused-vars.py` — `UnusedVariableCleaner.is_variable_used`,
  `UnusedVariableCleaner.remove_unused_variables`;
* `fix-common-unused.py` — `is_variable_used`, `fix_common_unused_variables`;
* `fix-console-logging.py` — `ConsoleToLoggingMigrator.add_logger_import`,
  `ConsoleToLoggingMigrator.replace_console_statements`.

Text is modelled as `List Char`.  Each Python regular-expression operation is
embedded as an executable Lean function implementing Python `re` semantics
(leftmost scanning, greedy matching with backtracking, non-overlapping
continuation after each match) specialised to the concrete pattern the script
uses.  `re.finditer` iterates over the string object captured when it was
called; the scripts mutate the `content` variable inside those loops, so
matches carry offsets into the pre-edit buffer while edits are spliced into
the current buffer — the embedding reproduces exactly that.
-/

/-- ASCII word character, Python's `\w` for the ASCII inputs used here. -/
def isWordChar (c : Char) : Bool := c.isAlphanum || c == '_'

/-- Python's `\s` whitespace class (ASCII part). -/
def isPySpace (c : Char) : Bool :=
  c == ' ' || c == '\t' || c == '\n' || c == '\r' || c == '\x0b' || c == '\x0c'

/-- The two quote characters accepted by the `["\']` classes. -/
def isQuoteCh (c : Char) : Bool := c == '"' || c == '\x27'

/-- Character at index `i`, NUL when out of range (no pattern accepts NUL). -/
def charAt (s : List Char) (i : Nat) : Char := s.getD i (Char.ofNat 0)

/-- Does the literal `lit` occur in `s` starting at index `i`? -/
def litAt (lit s : List Char) (i : Nat) : Bool := lit.isPrefixOf (s.drop i)

/-- End of the maximal run of characters satisfying `p` starting at `i`:
the first index `≥ i` whose character fails `p` (or `s.length`). -/
def runEnd (p : Char → Bool) (s : List Char) (i : Nat) : Nat :=
  i + ((s.drop i).takeWhile p).length

/-- First index `≥ i` whose character satisfies `p`. -/
def findFrom (p : Char → Bool) (s : List Char) (i : Nat) : Option Nat :=
  match (s.drop i).findIdx? p with
  | some k => some (i + k)
  | none => none

/-- Python's substring test `needle in hay`. -/
def hasSub (needle : List Char) : List Char → Bool
  | [] => needle.isEmpty
  | c :: rest => needle.isPrefixOf (c :: rest) || hasSub needle rest

/-- Is the character at index `i` (if any) a word character? -/
def wordAt (s : List Char) (i : Nat) : Bool := isWordChar (charAt s i)

/-- Python's `\b`: a word boundary at position `i` of `s`. -/
def boundaryAt (s : List Char) (i : Nat) : Bool :=
  (if i == 0 then false else wordAt s (i - 1)) != wordAt s i

/-- A whole-word occurrence of `w` at position `i`:
`\b` + the escaped name + `\b`. -/
def matchWordAt (w s : List Char) (i : Nat) : Bool :=
  litAt w s i && boundaryAt s i && boundaryAt s (i + w.length)

/-- `len(re.findall(r'\b' + re.escape(w) + r'\b', s))`: scan left to right,
counting non-overlapping whole-word occurrences. -/
def countWordAux (w s : List Char) : Nat → Nat → Nat
  | 0, _ => 0
  | fuel + 1, i =>
    if s.length < i then 0
    else if matchWordAt w s i then countWordAux w s fuel (i + max 1 w.length) + 1
    else countWordAux w s fuel (i + 1)

/-- Whole-word occurrence count of `w` in `s`. -/
def countWord (w s : List Char) : Nat := countWordAux w s (s.length + 1) 0

/-- `UnusedVariableCleaner.is_variable_used` (identical to the module-level
`is_variable_used` of fix-common-unused.py): count whole-word occurrences,
subtract 1 for the declaration, used iff the result is positive. -/
def is_variable_used (varName content : List Char) : Bool :=
  decide ((0 : Int) < (countWord varName content : Int) - 1)

/-- Python `str.split(sep)` for a one-character separator: splits at every
occurrence, keeping empty pieces. -/
def pySplit (sep : Char) : List Char → List (List Char)
  | [] => [[]]
  | c :: rest =>
    match pySplit sep rest with
    | [] => [[c]]
    | h :: t => if c == sep then [] :: h :: t else (c :: h) :: t

/-- Python `str.strip()`. -/
def pyStrip (s : List Char) : List Char :=
  ((s.dropWhile isPySpace).reverse.dropWhile isPySpace).reverse

/-- `var.split(':')[0].strip()` — the source name of a (possibly aliased)
destructuring member. -/
def varNameOf (v : List Char) : List Char :=
  pyStrip (v.takeWhile (fun c => c != ':'))

/-- `[v.strip() for v in vars_str.split(',') if v.strip()]`. -/
def memberList (g : List Char) : List (List Char) :=
  ((pySplit ',' g).map pyStrip).filter (fun v => !v.isEmpty)

/-- The member filter of both destructuring passes: keep exactly the members
whose source name is judged used in `content`. -/
def usedMembers (content : List Char) (varsList : List (List Char)) :
    List (List Char) :=
  varsList.filter (fun v => is_variable_used (varNameOf v) content)

/-- One match of `const\s+\{\s*([^}]+)\s*\}\s*=` attempted at position `i`:
returns (end of match, group 1).  Greedy semantics: `[^}]+` runs to the first
`}` and keeps trailing whitespace; when everything between the braces is
whitespace, `\s*` backtracks and the group is the last whitespace character. -/
def matchDestrAt (s : List Char) (i : Nat) : Option (Nat × List Char) :=
  if litAt (("const").data) s i && isPySpace (charAt s (i + 5)) then
    let h := runEnd isPySpace s (i + 5)
    if charAt s h == '\x7b' then
      match findFrom (fun c => c == '\x7d') s (h + 1) with
      | some b0 =>
        if h + 1 < b0 then
          let wEnd := runEnd isPySpace s (h + 1)
          let gStart := min wEnd (b0 - 1)
          let e := runEnd isPySpace s (b0 + 1)
          if charAt s e == '=' then
            some (e + 1, (s.drop gStart).take (b0 - gStart))
          else none
        else none
      | none => none
    else none
  else none

/-- `re.finditer` scanning for the destructuring pattern. -/
def finditerDestrAux (s : List Char) : Nat → Nat → List (Nat × Nat × List Char)
  | 0, _ => []
  | fuel + 1, i =>
    if s.length < i then []
    else
      match matchDestrAt s i with
      | some (e, g) => (i, e, g) :: finditerDestrAux s fuel (max e (i + 1))
      | none => finditerDestrAux s fuel (i + 1)

/-- All destructuring-pattern matches of `s`, as (start, end, group). -/
def finditerDestr (s : List Char) : List (Nat × Nat × List Char) :=
  finditerDestrAux s (s.length + 1) 0

/-- `', '.join(used_vars)`. -/
def joinComma (l : List (List Char)) : List Char :=
  List.intercalate ((", ").data) l

/-- `f"const {{ {new_vars_str} }} ="`. -/
def destrReplacement (used : List (List Char)) : List Char :=
  ("const \x7b ").data ++ joinComma used ++ (" \x7d =").data

/-- The body of the destructuring loop of
`UnusedVariableCleaner.remove_unused_variables`: usage is judged against the
current buffer `acc` while the match offsets refer to the buffer the iterator
was created on. -/
def applyDestrEdit (acc : List Char) (m : Nat × Nat × List Char) : List Char :=
  let varsList := memberList m.2.2
  let used := usedMembers acc varsList
  if used.length < varsList.length then
    acc.take m.1 ++ destrReplacement used ++ acc.drop m.2.1
  else acc

/-- Pattern-1 pass of `remove_unused_variables`. -/
def cleanDestructuring (c : List Char) : List Char :=
  (finditerDestr c).foldl applyDestrEdit c

/-- One match of `(const|let|var)\s+(\w+)\s*=\s*[^;]+;` attempted at `i`:
returns (end of match, group 2 = the variable name). -/
def matchSimpleAt (s : List Char) (i : Nat) : Option (Nat × List Char) :=
  let kwLen : Option Nat :=
    if litAt (("const").data) s i then some 5
    else if litAt (("let").data) s i then some 3
    else if litAt (("var").data) s i then some 3
    else none
  match kwLen with
  | none => none
  | some k =>
    if isPySpace (charAt s (i + k)) then
      let h := runEnd isPySpace s (i + k)
      let q := runEnd isWordChar s h
      if h < q then
        let r := runEnd isPySpace s q
        if charAt s r == '=' then
          match findFrom (fun c => c == ';') s (r + 1) with
          | some m => if r + 2 ≤ m then some (m + 1, (s.drop h).take (q - h)) else none
          | none => none
        else none
      else none
    else none

/-- `re.finditer` scanning for the simple-declaration pattern. -/
def finditerSimpleAux (s : List Char) : Nat → Nat → List (Nat × Nat × List Char)
  | 0, _ => []
  | fuel + 1, i =>
    if s.length < i then []
    else
      match matchSimpleAt s i with
      | some (e, g) => (i, e, g) :: finditerSimpleAux s fuel (max e (i + 1))
      | none => finditerSimpleAux s fuel (i + 1)

/-- All simple-declaration matches of `s`. -/
def finditerSimple (s : List Char) : List (Nat × Nat × List Char) :=
  finditerSimpleAux s (s.length + 1) 0

/-- The body of the simple-declaration loop of `remove_unused_variables`:
when the name is judged unused, the entire line around the (stale) match
offsets is removed from the current buffer, provided the line still contains
the name and an `=`. -/
def applySimpleEdit (acc : List Char) (m : Nat × Nat × List Char) : List Char :=
  let name := m.2.2
  if is_variable_used name acc then acc
  else
    let pre := acc.take m.1
    let lineStart :=
      match pre.reverse.findIdx? (fun c => c == '\n') with
      | some k => pre.length - k
      | none => 0
    let lineEnd :=
      match findFrom (fun c => c == '\n') acc m.2.1 with
      | some j => j
      | none => acc.length
    let line := (acc.drop lineStart).take (lineEnd - lineStart)
    if hasSub name line && hasSub (("=").data) line then
      acc.take lineStart ++ acc.drop (lineEnd + 1)
    else acc

/-- Pattern-2 pass of `remove_unused_variables`. -/
def removeSimple (c : List Char) : List Char :=
  (finditerSimple c).foldl applySimpleEdit c

/-- `UnusedVariableCleaner.remove_unused_variables`: the destructuring pass
followed by the simple-declaration pass. -/
def remove_unused_variables (c : List Char) : List Char :=
  removeSimple (cleanDestructuring c)

/-- Head of every console pattern, `console\.CALLEE\s*\(`, matched against a
suffix of the buffer: returns the rest of the suffix after the opening
parenthesis.  (`re.sub` exposes no offsets, so the migrator's matchers walk
suffixes directly.) -/
def matchConsoleHead (callee t : List Char) : Option (List Char) :=
  let lit := ("console.").data ++ callee
  if lit.isPrefixOf t then
    let t1 := (t.drop lit.length).dropWhile isPySpace
    match t1 with
    | '(' :: t2 => some t2
    | _ => none
  else none

/-- `\s*["\']([^"\']*)["\']`: returns (group, rest after the closing quote).
The group runs to the first quote character; opening and closing quotes need
not agree. -/
def matchStrArg (t : List Char) : Option (List Char × List Char) :=
  match t.dropWhile isPySpace with
  | q :: t2 =>
    if isQuoteCh q then
      let g := t2.takeWhile (fun c => !isQuoteCh c)
      match t2.drop g.length with
      | _ :: t3 => some (g, t3)
      | [] => none
    else none
  | [] => none

/-- `\s*,\s*([^)]+)\)`: the group is greedy up to the first `)`; when only
whitespace separates the comma from that `)`, `\s*` backtracks one character
so the group is non-empty.  Returns (group, rest after the `)`). -/
def matchSecondArg (t : List Char) : Option (List Char × List Char) :=
  match t.dropWhile isPySpace with
  | ',' :: t2 =>
    let r := t2.takeWhile (fun c => c != ')')
    match t2.drop r.length with
    | _ :: t3 =>
      if r.isEmpty then none
      else some (r.drop (min (r.takeWhile isPySpace).length (r.length - 1)), t3)
    | [] => none
  | _ => none

/-- `\s*\)`: returns the rest after the closing parenthesis. -/
def matchCloseParen (t : List Char) : Option (List Char) :=
  match t.dropWhile isPySpace with
  | ')' :: t2 => some t2
  | _ => none

/-- `console\.CALLEE\s*\(\s*["\']([^"\']*)["\']\s*,\s*([^)]+)\)`:
returns (group 1, group 2, rest after the match). -/
def matchTwoArg (callee t : List Char) :
    Option (List Char × List Char × List Char) :=
  (matchConsoleHead callee t).bind fun t1 =>
  (matchStrArg t1).bind fun pr =>
  (matchSecondArg pr.2).map fun pr2 => (pr.1, pr2.1, pr2.2)

/-- `console\.CALLEE\s*\(\s*["\']([^"\']*)["\']\s*\)`:
returns (group 1, rest after the match). -/
def matchOneArg (callee t : List Char) : Option (List Char × List Char) :=
  (matchConsoleHead callee t).bind fun t1 =>
  (matchStrArg t1).bind fun pr =>
  (matchCloseParen pr.2).map fun t2 => (pr.1, t2)

/-- Pattern 2, `console\.error\s*\(\s*["\']([^"\']*):["\']\s*,`: the group
excludes the trailing colon and the match ends just after the comma. -/
def matchColonComma (t : List Char) : Option (List Char × List Char) :=
  (matchConsoleHead (("error").data) t).bind fun t1 =>
  match t1.dropWhile isPySpace with
  | q :: t2 =>
    if isQuoteCh q then
      let g := t2.takeWhile (fun c => !isQuoteCh c)
      match t2.drop g.length with
      | _ :: t3 =>
        if g.getLastD (Char.ofNat 0) == ':' then
          match t3.dropWhile isPySpace with
          | ',' :: t4 => some (g.dropLast, t4)
          | _ => none
        else none
      | [] => none
    else none
  | [] => none

/-- `(?:Start|Complete|Process)` containment for pattern 6. -/
def hasKeyword (g : List Char) : Bool :=
  hasSub (("Start").data) g || hasSub (("Complete").data) g ||
    hasSub (("Process").data) g

/-- `re.sub` for a matcher that yields the replacement text and the rest of
the buffer after the match (every pattern here consumes at least one
character): scan left to right, splice each replacement, continue after the
match, copy unmatched characters. -/
def reSubAux (m : List Char → Option (List Char × List Char)) :
    Nat → List Char → List Char
  | 0, _ => []
  | _, [] => []
  | fuel + 1, c :: rest =>
    match m (c :: rest) with
    | some (rep, t2) => rep ++ reSubAux m fuel t2
    | none => c :: reSubAux m fuel rest

/-- `re.sub pattern replacement s` via a replacement-producing matcher. -/
def reSub (m : List Char → Option (List Char × List Char)) (s : List Char) :
    List Char :=
  reSubAux m (s.length + 1) s

/-- `len(re.findall(pattern, s))` via the same matcher. -/
def countMatchesAux (m : List Char → Option (List Char × List Char)) :
    Nat → List Char → Nat
  | 0, _ => 0
  | _, [] => 0
  | fuel + 1, c :: rest =>
    match m (c :: rest) with
    | some (_, t2) => countMatchesAux m fuel t2 + 1
    | none => countMatchesAux m fuel rest

/-- Number of matches of a matcher in `s`. -/
def countMatches (m : List Char → Option (List Char × List Char))
    (s : List Char) : Nat :=
  countMatchesAux m (s.length + 1) s

/-- Replacement 1: `logger.error("\1", \2 instanceof Error ? \2 : new Error(String(\2)))`. -/
def rep1 (g1 g2 : List Char) : List Char :=
  ("logger.error(\"").data ++ g1 ++ ("\", ").data ++ g2 ++
    (" instanceof Error ? ").data ++ g2 ++ (" : new Error(String(").data ++
    g2 ++ (")))").data

/-- Replacement 2: `logger.error("\1"`. -/
def rep2 (g1 : List Char) : List Char :=
  ("logger.error(\"").data ++ g1 ++ ("\"").data

/-- Replacement 3: `logger.error("\1")`. -/
def rep3 (g1 : List Char) : List Char :=
  ("logger.error(\"").data ++ g1 ++ ("\")").data

/-- Replacements 4/7/9: `logger.LEVEL("\1", { \2 })`. -/
def repObj (level g1 g2 : List Char) : List Char :=
  ("logger.").data ++ level ++ ("(\"").data ++ g1 ++ ("\", \x7b ").data ++
    g2 ++ (" \x7d)").data

/-- Replacements 5/6/8/10: `logger.LEVEL("\1")`. -/
def repPlain (level g1 : List Char) : List Char :=
  ("logger.").data ++ level ++ ("(\"").data ++ g1 ++ ("\")").data

/-- Matcher + replacement for pattern 1. -/
def conMatch1 (t : List Char) : Option (List Char × List Char) :=
  (matchTwoArg (("error").data) t).map fun pr => (rep1 pr.1 pr.2.1, pr.2.2)

/-- Matcher + replacement for pattern 2. -/
def conMatch2 (t : List Char) : Option (List Char × List Char) :=
  (matchColonComma t).map fun pr => (rep2 pr.1, pr.2)

/-- Matcher + replacement for pattern 3. -/
def conMatch3 (t : List Char) : Option (List Char × List Char) :=
  (matchOneArg (("error").data) t).map fun pr => (rep3 pr.1, pr.2)

/-- Matcher + replacement for pattern 4. -/
def conMatch4 (t : List Char) : Option (List Char × List Char) :=
  (matchTwoArg (("warn").data) t).map fun pr =>
    (repObj (("warn").data) pr.1 pr.2.1, pr.2.2)

/-- Matcher + replacement for pattern 5. -/
def conMatch5 (t : List Char) : Option (List Char × List Char) :=
  (matchOneArg (("warn").data) t).map fun pr =>
    (repPlain (("warn").data) pr.1, pr.2)

/-- Matcher + replacement for pattern 6 (keyword `console.log`). -/
def conMatch6 (t : List Char) : Option (List Char × List Char) :=
  (matchOneArg (("log").data) t).bind fun pr =>
    if hasKeyword pr.1 then some (repPlain (("info").data) pr.1, pr.2)
    else none

/-- Matcher + replacement for pattern 7. -/
def conMatch7 (t : List Char) : Option (List Char × List Char) :=
  (matchTwoArg (("log").data) t).map fun pr =>
    (repObj (("info").data) pr.1 pr.2.1, pr.2.2)

/-- Matcher + replacement for pattern 8. -/
def conMatch8 (t : List Char) : Option (List Char × List Char) :=
  (matchOneArg (("log").data) t).map fun pr =>
    (repPlain (("debug").data) pr.1, pr.2)

/-- Matcher + replacement for pattern 9. -/
def conMatch9 (t : List Char) : Option (List Char × List Char) :=
  (matchTwoArg (("info").data) t).map fun pr =>
    (repObj (("info").data) pr.1 pr.2.1, pr.2.2)

/-- Matcher + replacement for pattern 10. -/
def conMatch10 (t : List Char) : Option (List Char × List Char) :=
  (matchOneArg (("info").data) t).map fun pr =>
    (repPlain (("info").data) pr.1, pr.2)

/-- The text component of
`ConsoleToLoggingMigrator.replace_console_statements`: the ten `re.sub`
passes applied in the source's order. -/
def replace_console_text (c : List Char) : List Char :=
  reSub conMatch10 (reSub conMatch9 (reSub conMatch8 (reSub conMatch7
    (reSub conMatch6 (reSub conMatch5 (reSub conMatch4 (reSub conMatch3
      (reSub conMatch2 (reSub conMatch1 c)))))))))

/-- `ConsoleToLoggingMigrator.replace_console_statements`: the rewritten text
together with `replacements_made`, which the source computes by counting each
pattern's matches against the original input. -/
def replace_console_statements (c : List Char) : List Char × Nat :=
  (replace_console_text c,
    countMatches conMatch1 c + countMatches conMatch2 c +
      countMatches conMatch3 c + countMatches conMatch4 c +
      countMatches conMatch5 c + countMatches conMatch6 c +
      countMatches conMatch7 c + countMatches conMatch8 c +
      countMatches conMatch9 c + countMatches conMatch10 c)

/-- The literal string whose Python substring test guards
`add_logger_import` (the source writes `'import.*logger.*from' in content`,
a literal containment check, not a regex search). -/
def litGuard : List Char := ("import.*logger.*from").data

/-- The logger import line the migrator inserts. -/
def importLine : List Char :=
  ("import \x7b logger \x7d from \x27./logging\x27;").data

/-- First newline at or after `i`, or `s.length`. -/
def lineEndFrom (s : List Char) (i : Nat) : Nat :=
  match findFrom (fun c => c == '\n') s i with
  | some j => j
  | none => s.length

/-- Last `;` in `[a, b)` of `s`, if any. -/
def lastSemiIn (s : List Char) (a b : Nat) : Option Nat :=
  let region := (s.drop a).take (b - a)
  match region.reverse.findIdx? (fun c => c == ';') with
  | some t => some (a + region.length - 1 - t)
  | none => none

/-- One match of `(import.*from[^\n]*;\n*)` attempted at `i`.  The whole
pattern is one line-bound unit: greedy `.*` selects the last viable `from`,
`[^\n]*;` runs to the last `;` of the line, and `\n*` swallows the trailing
newlines; a match exists iff the line holds a `;` with a `from` ending at or
before it. -/
def matchImportAt (s : List Char) (i : Nat) : Option Nat :=
  if litAt (("import").data) s i then
    let endOfLine := lineEndFrom s (i + 6)
    match lastSemiIn s (i + 6) endOfLine with
    | some k =>
      if hasSub (("from").data) ((s.drop (i + 6)).take (k - (i + 6))) then
        some (runEnd (fun c => c == '\n') s (k + 1))
      else none
    | none => none
  else none

/-- `re.findall` scanning for the import pattern, collecting the matched
substrings (group 1 is the whole pattern). -/
def findallImportsAux (s : List Char) : Nat → Nat → List (List Char)
  | 0, _ => []
  | fuel + 1, i =>
    if s.length < i then []
    else
      match matchImportAt s i with
      | some e => ((s.drop i).take (e - i)) :: findallImportsAux s fuel (max e (i + 1))
      | none => findallImportsAux s fuel (i + 1)

/-- All import-pattern matches of `s`. -/
def findallImports (s : List Char) : List (List Char) :=
  findallImportsAux s (s.length + 1) 0

/-- Start index of the last occurrence of `needle` in `hay`
(`hay.rfind(needle)`; the source only calls it on needles produced by
`findall`, so an occurrence always exists — Python's `-1` branch is
unreachable and 0 stands in for it). -/
def pyRfindStart (needle hay : List Char) : Nat :=
  ((List.range (hay.length + 1)).filter
    (fun i => needle.isPrefixOf (hay.drop i))).getLastD 0

/-- `ConsoleToLoggingMigrator.add_logger_import`: returns the new content and
whether a change was reported. -/
def add_logger_import (c : List Char) : List Char × Bool :=
  if hasSub litGuard c then (c, false)
  else
    match findallImports c with
    | [] => (importLine ++ ( '\n' :: '\n' :: []) ++ c, true)
    | ms =>
      let last := ms.getLastD []
      let p := pyRfindStart last c + last.length
      (c.take p ++ importLine ++ ( '\n' :: []) ++ c.drop p, true)

/-- C1 failing input: a destructuring declaration both of whose members are
judged unused. -/
def exC1in : List Char := ("const \x7b a, b \x7d = getThing();").data

/-- What the cleaner actually produces on `exC1in`. -/
def exC1out : List Char := ("const \x7b  \x7d = getThing();").data

/-- C2 failing input: `b` is dead, but its declaration shares a line with the
live declaration of `a`. -/
def exC2in : List Char := ("const a = 1; const b = a;").data

/-- C3 failing input: two destructuring declarations, each losing one dead
member; the first edit shortens the buffer, so the second edit's offsets are
stale. -/
def exC3in : List Char :=
  ("const \x7b aa, bb \x7d = f();\nconst \x7b cc, dd \x7d = g();\naa;\ncc;\n").data

/-- What the cleaner actually produces on `exC3in`: the text `t \x7b cc, dd \x7d = g()`
outside the planned member-list edits has been destroyed and `cons`
duplicated. -/
def exC3out : List Char :=
  ("const \x7b aa \x7d = f();\nconsconst \x7b cc \x7d =;\naa;\ncc;\n").data

/-- C4 failing input: a `console.error` whose second argument itself contains
a `console.error` prefix. -/
def exC4in : List Char :=
  ("console.error(\x27a\x27, console.error(\x27b\x27, c))").data

/-- C6 failing input: the second argument contains parentheses. -/
def exC6in : List Char :=
  ("console.error(\x27failed\x27, getError(x))").data

/-- What the migrator actually produces on `exC6in`: the argument is cut at
the first `)`. -/
def exC6out : List Char :=
  ("logger.error(\"failed\", getError(x instanceof Error ? getError(x : new Error(String(getError(x))))").data

/-- The output the claim prescribes for `exC6in`. -/
def exC6intended : List Char :=
  ("logger.error(\"failed\", getError(x) instanceof Error ? getError(x) : new Error(String(getError(x))))").data

/-- C7 failing input: a `console.error` whose second argument contains a
`console.warn` prefix. -/
def exC7in : List Char :=
  ("console.error(\x27a\x27, console.warn(\x27q\x27, r))").data

/-- What the migrator actually produces on `exC7in`: pattern 1 rewrote the
call, and pattern 4 then matched inside pattern 1's replacement in the same
pass. -/
def exC7out : List Char :=
  ("logger.error(\"a\", logger.warn(\"q\", \x7b r instanceof Error ? console.warn(\x27q\x27, r : new Error(String(console.warn(\x27q\x27, r \x7d))))").data

/-- C9 witness input: a file that already contains the exact logger import
(but of course not the literal text `import.*logger.*from`). -/
def exC9in : List Char :=
  ("import \x7b logger \x7d from \x27./logging\x27;\nconsole.log(\x27hi\x27);\n").data

/-- C10 witness content: an aliased destructuring whose source name occurs
twice. -/
def exC10content : List Char :=
  ("const \x7b data: d \x7d = props; data;").data

/-- C1: the claim says a destructuring declaration whose members are all
judged unused is left byte-identical (never rewritten to an empty member
list).  The code has no such guard: on `exC1in` both members are judged
unused and the statement is rewritten to the empty member list
`const \x7b  \x7d =`, so the buffer is not left byte-identical. -/
theorem destructuring_emptied_when_all_members_unused :
    is_variable_used (("a").data) exC1in = false ∧
    is_variable_used (("b").data) exC1in = false ∧
    remove_unused_variables exC1in = exC1out ∧
    remove_unused_variables exC1in ≠ exC1in := by decide

/-- C2: the claim says a declaration of an identifier used at least once
outside its own declaration is never removed.  On `exC2in`, `a` has
whole-word count 2 (declaration + one real use), yet removing the dead `b`
deletes the whole shared line, producing the empty buffer — `a`'s live
declaration is gone. -/
theorem live_declaration_removed :
    countWord (("a").data) exC2in = 2 ∧
    remove_unused_variables exC2in = [] ∧
    hasSub (("const a").data) (remove_unused_variables exC2in) = false := by
  decide

/-- C3: the claim says edits are spliced in descending start order so each
lands at its computed span and all text outside the edited ranges survives
byte-for-byte.  The code splices in ascending `finditer` order with offsets
into the pre-edit buffer: on `exC3in` the second edit lands four characters
late, destroying `g()` (which lies outside every planned edit span). -/
theorem stale_offset_splicing_corrupts_frame :
    remove_unused_variables exC3in = exC3out ∧
    hasSub (("g()").data) exC3in = true ∧
    hasSub (("g()").data) (remove_unused_variables exC3in) = false := by decide

set_option maxRecDepth 100000 in
set_option maxHeartbeats 2000000 in
/-- C4: the claim says the transformation is idempotent.  On `exC4in` the
first pass leaves a `console.error(` fragment (copied out of the second
argument) in its output, which the second pass rewrites again, so
`transform (transform x) ≠ transform x`. -/
theorem transform_not_idempotent :
    replace_console_text (replace_console_text exC4in) ≠
      replace_console_text exC4in := by decide

/-- C5: the usage verdict is "unused" exactly when the whole-word occurrence
count of the name in the scope, after discounting the one declaration-site
occurrence, is zero (counts are natural numbers, so the discount is
truncated subtraction). -/
theorem unused_iff_count_minus_declaration_zero :
    ∀ (n s : List Char), is_variable_used n s = false ↔ countWord n s - 1 = 0 := by
  intro n s
  simp only [is_variable_used, decide_eq_false_iff_not, not_lt]
  omega

set_option maxRecDepth 100000 in
set_option maxHeartbeats 2000000 in
/-- C6: the claim says a two-argument `console.error` call rewrites to the
alternate call with the full second argument wrapped in the error-coercion
conditional.  On `exC6in` the greedy-to-first-`)` capture truncates the
argument `getError(x)` to `getError(x`, and the produced text is not the
prescribed wrapped form. -/
theorem second_argument_truncated_not_wrapped :
    replace_console_text exC6in = exC6out ∧ exC6out ≠ exC6intended := by decide

set_option maxRecDepth 100000 in
set_option maxHeartbeats 2000000 in
/-- C7: the claim says the first matching pattern wins and a rewritten span
is never matched again in the same pass.  On `exC7in` pattern 1 rewrites the
whole call (embedding copies of the second argument in its replacement), and
pattern 4 then matches inside that rewritten span during the same pass, so
the output of one pass contains both `logger.error` and `logger.warn`. -/
theorem rewritten_span_rematched_same_pass :
    replace_console_text exC7in = exC7out ∧
    hasSub (("console.warn").data) exC7in = true ∧
    hasSub (("logger.error").data) exC7out = true ∧
    hasSub (("logger.warn").data) exC7out = true := by decide

/-- C8: the usage resolver is pure: membership of a member in the filtered
list depends only on (its own source name, the scope text), never on the
other candidates, and the filter respects any permutation of the candidate
list. -/
theorem usage_resolver_pure :
    (∀ (content : List Char) (l : List (List Char)) (v : List Char),
        v ∈ usedMembers content l ↔
          v ∈ l ∧ is_variable_used (varNameOf v) content = true) ∧
    (∀ (content : List Char) (l₁ l₂ : List (List Char)),
        l₁.Perm l₂ → (usedMembers content l₁).Perm (usedMembers content l₂)) := by
  constructor
  · intro content l v
    simp [usedMembers, List.mem_filter]
  · intro content l₁ l₂ h
    exact h.filter _

/-- Witness for C8 at concrete inputs: permuting the two candidates permutes
the filtered list. -/
theorem usage_resolver_pure_witness :
    (usedMembers (("x; x;").data) [("x").data, ("y").data]).Perm
      (usedMembers (("x; x;").data) [("y").data, ("x").data]) :=
  usage_resolver_pure.2 (("x; x;").data) [("x").data, ("y").data]
    [("y").data, ("x").data] (List.Perm.swap (("y").data) (("x").data) [])

/-- C9: whenever the literal text `import.*logger.*from` does not occur in
the content (the guard is a substring test of that literal, not a regex
search), `add_logger_import` reports a change and inserts a fresh
logger-import line, growing the buffer — even when that exact line is
already present, which yields a duplicate on re-processing. -/
theorem add_logger_import_always_inserts :
    ∀ c : List Char, hasSub litGuard c = false →
      (add_logger_import c).2 = true ∧
      importLine <:+: (add_logger_import c).1 ∧
      c.length < (add_logger_import c).1.length := by
  intro c h
  have h2 : ¬ (hasSub litGuard c = true) := by simp [h]
  unfold add_logger_import
  rw [if_neg h2]
  rcases hm : findallImports c with _ | ⟨m, ms⟩
  · refine ⟨rfl, ⟨[], ( '\n' :: '\n' :: []) ++ c, by simp⟩, ?_⟩
    simp only [List.length_append, List.length_cons]
    omega
  · refine ⟨rfl, ⟨c.take (pyRfindStart ((m :: ms).getLastD []) c +
      ((m :: ms).getLastD []).length),
      ( '\n' :: []) ++ c.drop (pyRfindStart ((m :: ms).getLastD []) c +
        ((m :: ms).getLastD []).length), by simp⟩, ?_⟩
    simp [List.length_append, List.length_take, List.length_drop]
    omega

/-- Witness for C9: on `exC9in`, which already contains the exact
logger-import line, the function still reports a change and inserts another
copy. -/
theorem add_logger_import_always_inserts_witness :
    hasSub litGuard exC9in = false ∧
    ((add_logger_import exC9in).2 = true ∧
      importLine <:+: (add_logger_import exC9in).1 ∧
      exC9in.length < (add_logger_import exC9in).1.length) :=
  ⟨by decide, add_logger_import_always_inserts exC9in (by decide)⟩

/-- Helper: `takeWhile` stops exactly at the first failing character. -/
theorem takeWhile_append_stop {p : Char → Bool} :
    ∀ (l₁ : List Char) (c : Char) (l₂ : List Char),
      l₁.all p = true → p c = false → (l₁ ++ c :: l₂).takeWhile p = l₁ := by
  intro l₁ c l₂ h hc
  induction l₁ with
  | nil => simp [List.takeWhile_cons, hc]
  | cons a t ih =>
    simp only [List.all_cons, Bool.and_eq_true] at h
    simp [List.takeWhile_cons, h.1, ih h.2]

/-- C10: an aliased destructuring member `src: alias` is kept by the member
filter exactly when the source name `src` has at least two whole-word
occurrences in the content (declaration + one use); the alias never enters
the verdict. -/
theorem aliased_member_kept_iff_source_used :
    ∀ (src aliasName content : List Char),
      src.all (fun c => c != ':') = true →
      pyStrip src = src →
      ((src ++ (": ").data ++ aliasName) ∈
          usedMembers content [src ++ (": ").data ++ aliasName] ↔
        2 ≤ countWord src content) := by
  intro src aliasName content hcolon hstrip
  have hname : varNameOf (src ++ (": ").data ++ aliasName) = src := by
    unfold varNameOf
    rw [(by simp : src ++ (": ").data ++ aliasName =
      src ++ ( ':' :: ( ' ' :: aliasName)))]
    rw [takeWhile_append_stop src ':' ( ' ' :: aliasName) hcolon (by decide)]
    exact hstrip
  simp only [usedMembers, List.mem_filter, List.mem_singleton, hname,
    is_variable_used, decide_eq_true_eq, true_and]
  omega

/-- Witness for C10 at concrete inputs: `data: d` is kept because `data`
occurs twice in the content. -/
theorem aliased_member_kept_iff_source_used_witness :
    (("data").data.all (fun c => c != ':') = true ∧
      pyStrip (("data").data) = ("data").data) ∧
    ((("data").data ++ (": ").data ++ ("d").data) ∈
        usedMembers exC10content
          [("data").data ++ (": ").data ++ ("d").data] ↔
      2 ≤ countWord (("data").data) exC10content) :=
  ⟨⟨by decide, by decide⟩,
    aliased_member_kept_iff_source_used (("data").data) (("d").data)
      exC10content (by decide) (by decide)⟩
